import Mathlib

/-!
Shallow embedding of the core logic of the `pc-builder-pro` application
(`src/pc-builder-pro/src/App.tsx`): the compatibility rule engine
(`checkCompatibility`, `estimateWattage`), the spreadsheet import
normalizer (`normalizeHeader`, `parseWorkbookToProducts`), and the
catalog/builder state operations (`deleteProduct`, `selectPart`).

Modelling conventions:
* JavaScript runtime values occurring in product attribute bags are
  modelled by the inductive `JVal` (null, booleans, numbers, strings,
  arrays, objects).  JavaScript numbers are modelled as `Int`
  (the program only manipulates integral quantities); the separate
  `JsNumber` type additionally carries `NaN`, which `Number(...)`
  coercion can produce for the `price` and `stock` fields.
* `undefined` is modelled as `Option.none` at use sites (absent object
  properties, absent selection slots).
* JavaScript strict equality `===` on attribute values is modelled by
  `strictEq`: arrays and objects compare by reference, and two
  distinct array/object values in this program are never the same
  reference, so they compare unequal.
* The external `JSON.parse` library call is a parameter
  (`jsonParse : String → Option JVal`) of the row normalizer;
  `jsonParseImpl` is a concrete executable instance covering the JSON
  fragment exercised here.
-/

namespace PCBuilder

/-- JavaScript runtime values as they occur in product attribute bags. -/
inductive JVal where
  | jnull : JVal
  | jbool (b : Bool) : JVal
  | num (n : Int) : JVal
  | str (s : String) : JVal
  | arr (elems : List JVal) : JVal
  | obj (fields : List (String × JVal)) : JVal

/-- JavaScript truthiness of a `JVal` (`null`, `false`, `0`, `""` are falsy;
arrays and objects, even empty ones, are truthy). -/
def truthy : JVal → Bool
  | JVal.jnull => false
  | JVal.jbool b => b
  | JVal.num n => n != 0
  | JVal.str s => s != ""
  | JVal.arr _ => true
  | JVal.obj _ => true

/-- JavaScript strict equality `===` between two defined values.
Arrays and objects compare by reference; distinct array/object values
arising in this program are never reference-equal, so they compare `false`. -/
def strictEq : JVal → JVal → Bool
  | JVal.jnull, JVal.jnull => true
  | JVal.jbool a, JVal.jbool b => a == b
  | JVal.num a, JVal.num b => a == b
  | JVal.str a, JVal.str b => a == b
  | _, _ => false

/-- JavaScript strict equality lifted to possibly-`undefined` operands
(`undefined === undefined` is `true`). -/
def jsStrictEqOpt : Option JVal → Option JVal → Bool
  | none, none => true
  | some a, some b => strictEq a b
  | _, _ => false

mutual

/-- JavaScript `String(...)` conversion of a defined value. -/
def jvalToString : JVal → String
  | JVal.jnull => "null"
  | JVal.jbool b => if b then "true" else "false"
  | JVal.num n => toString n
  | JVal.str s => s
  | JVal.arr l => joinElems l
  | JVal.obj _ => "[object Object]"

/-- `Array.prototype.toString`: join element string conversions with `","`,
rendering `null` elements as the empty string. -/
def joinElems : List JVal → String
  | [] => ""
  | x :: xs =>
    let s := match x with
      | JVal.jnull => ""
      | v => jvalToString v
    match xs with
    | [] => s
    | _ :: _ => s ++ "," ++ joinElems xs

end

/-- `String(x)` where `x` may be `undefined`. -/
def jsOptToString : Option JVal → String
  | some v => jvalToString v
  | none => "undefined"

/-- Digits to a natural number (decimal). -/
def digitsToNat (ds : List Char) : Nat :=
  ds.foldl (fun a c => a * 10 + (c.toNat - '0'.toNat)) 0

/-- JavaScript `Number(...)` coercion of a string, on the integral fragment:
`none` models `NaN`.  Whitespace-only strings coerce to `0`; an optional
sign followed by decimal digits coerces to the corresponding integer;
anything else is `NaN`. -/
def strToNumberOpt (s : String) : Option Int :=
  match ((s.data.dropWhile Char.isWhitespace).reverse.dropWhile Char.isWhitespace).reverse with
  | [] => some 0
  | '-' :: ds => if ds ≠ [] ∧ ds.all Char.isDigit then some (-(Int.ofNat (digitsToNat ds))) else none
  | '+' :: ds => if ds ≠ [] ∧ ds.all Char.isDigit then some (Int.ofNat (digitsToNat ds)) else none
  | ds => if ds.all Char.isDigit then some (Int.ofNat (digitsToNat ds)) else none

/-- JavaScript `Number(...)` coercion of a defined value (`none` is `NaN`). -/
def jvalToNumberOpt : JVal → Option Int
  | JVal.jnull => some 0
  | JVal.jbool b => some (if b then 1 else 0)
  | JVal.num n => some n
  | JVal.str s => strToNumberOpt s
  | JVal.arr l => strToNumberOpt (joinElems l)
  | JVal.obj _ => none

/-- JavaScript `<` comparison: string/string compares lexicographically,
otherwise both operands are coerced to numbers and any `NaN` makes the
comparison `false`. -/
def jsLt (a b : JVal) : Bool :=
  match a, b with
  | JVal.str x, JVal.str y => decide (x < y)
  | _, _ =>
    match jvalToNumberOpt a, jvalToNumberOpt b with
    | some x, some y => decide (x < y)
    | _, _ => false

/-- Does the character list `hay` start with the character list `pat`? -/
def headMatches : List Char → List Char → Bool
  | _, [] => true
  | [], _ :: _ => false
  | a :: as, b :: bs => a == b && headMatches as bs

/-- Does `hay` contain `pat` as a contiguous run? -/
def charsContain (pat : List Char) : List Char → Bool
  | [] => pat.isEmpty
  | c :: rest => headMatches (c :: rest) pat || charsContain pat rest

/-- JavaScript `String.prototype.includes` (substring test). -/
def strIncludes (hay needle : String) : Bool :=
  charsContain needle.data hay.data

/-- JavaScript `container.includes(needle)`: array membership under strict
equality for arrays, substring test (of the string conversion of the
needle) for strings.  On other receivers `includes` is not a function;
those cases do not arise in the checks proved below. -/
def jsIncludes (container : JVal) (needle : Option JVal) : Bool :=
  match container with
  | JVal.arr l =>
    match needle with
    | some v => l.any (fun e => strictEq e v)
    | none => false
  | JVal.str s => strIncludes s (jsOptToString needle)
  | _ => false

/-- JavaScript `x || d` for a possibly-`undefined` `x`: the value of `x`
when defined and truthy, otherwise `d`. -/
def jsOrElse (v : Option JVal) (d : JVal) : JVal :=
  match v with
  | some x => if truthy x then x else d
  | none => d

/-- Association-list lookup modelling JavaScript property access `m[k]`. -/
def objGet {α : Type} (m : List (String × α)) (k : String) : Option α :=
  (m.find? (fun kv => kv.1 == k)).map (fun kv => kv.2)

/-- Association-list update modelling JavaScript property assignment
`m[k] = v`: overwrite in place when the key exists, append otherwise. -/
def objSet {α : Type} (m : List (String × α)) (k : String) (v : α) : List (String × α) :=
  match m with
  | [] => [(k, v)]
  | (k', v') :: rest => if k' == k then (k, v) :: rest else (k', v') :: objSet rest k v

/-- `Object.assign(m, extra)`: copy every field of `extra` into `m` in order. -/
def objAssign {α : Type} (m : List (String × α)) (extra : List (String × α)) : List (String × α) :=
  extra.foldl (fun acc kv => objSet acc kv.1 kv.2) m

/-- The eight product categories (`CATEGORIES` in `App.tsx`). -/
inductive Category where
  | CPU | Motherboard | GPU | RAM | Storage | PSU | Case | Cooler
deriving DecidableEq

/-- Display name of a category, exactly the string literal in `CATEGORIES`. -/
def categoryName : Category → String
  | Category.CPU => "CPU"
  | Category.Motherboard => "Motherboard"
  | Category.GPU => "GPU"
  | Category.RAM => "RAM"
  | Category.Storage => "Storage"
  | Category.PSU => "PSU"
  | Category.Case => "Case"
  | Category.Cooler => "Cooler"

/-- The `CATEGORIES` constant, in source order. -/
def CATEGORIES : List Category :=
  [Category.CPU, Category.Motherboard, Category.GPU, Category.RAM,
   Category.Storage, Category.PSU, Category.Case, Category.Cooler]

/-- A JavaScript number that may be `NaN` (as produced by `Number(...)`). -/
inductive JsNumber where
  | nan : JsNumber
  | val (n : Int) : JsNumber
deriving DecidableEq

/-- The `Product` record of `App.tsx`. -/
structure Product where
  id : String
  name : String
  category : Category
  price : JsNumber
  stock : JsNumber
  attributes : List (String × JVal)

/-- `parts : Partial<Record<Category, Product>>` — the builder selection:
at most one product per category. -/
abbrev Selection := Category → Option Product

/-- Attribute access `p.attributes[k]` (`undefined` when absent). -/
def getAttr (p : Product) (k : String) : Option JVal :=
  objGet p.attributes k

/-- The value of `parts[c]?.attributes?.[k]` for a selection. -/
def slotAttr (parts : Selection) (c : Category) (k : String) : Option JVal :=
  (parts c).bind (fun p => getAttr p k)

/-- `estimateWattage` from `App.tsx`:
`(parts["CPU"]?.attributes?.tdp || 0) + (parts["GPU"]?.attributes?.tdp || 0) + 100`
under JavaScript `+` semantics. -/
def jsAdd (a b : JVal) : JVal :=
  match a, b with
  | JVal.num x, JVal.num y => JVal.num (x + y)
  | x, y => JVal.str (jvalToString x ++ jvalToString y)

/-- The wattage estimate: CPU tdp plus GPU tdp plus a fixed 100 headroom. -/
def estimateWattage (parts : Selection) : JVal :=
  jsAdd (jsAdd (jsOrElse (slotAttr parts Category.CPU "tdp") (JVal.num 0))
               (jsOrElse (slotAttr parts Category.GPU "tdp") (JVal.num 0)))
        (JVal.num 100)

/-- Severity of a compatibility note. -/
inductive Level where
  | ok | warn | error
deriving DecidableEq

/-- A compatibility note `{ level, msg }`. -/
structure Note where
  level : Level
  msg : String
deriving DecidableEq

/-- CPU × Motherboard check: compare `cpu.attributes.socket` against
`mb.attributes.socket` with strict equality. -/
def cpuMbNotes (parts : Selection) : List Note :=
  match parts Category.CPU, parts Category.Motherboard with
  | some cpu, some mb =>
    if !jsStrictEqOpt (getAttr cpu "socket") (getAttr mb "socket") then
      [⟨Level.error, "CPU socket (" ++ jsOptToString (getAttr cpu "socket") ++
        ") ไม่ตรงกับเมนบอร์ด (" ++ jsOptToString (getAttr mb "socket") ++ ")"⟩]
    else
      [⟨Level.ok, "CPU ✔ เมนบอร์ด ✔ (ซ็อกเก็ตตรงกัน)"⟩]
  | _, _ => []

/-- RAM × Motherboard check: compare `ram.attributes.type` against
`mb.attributes.ramType` with strict equality. -/
def ramMbNotes (parts : Selection) : List Note :=
  match parts Category.RAM, parts Category.Motherboard with
  | some ram, some mb =>
    if !jsStrictEqOpt (getAttr ram "type") (getAttr mb "ramType") then
      [⟨Level.error, "RAM (" ++ jsOptToString (getAttr ram "type") ++
        ") ไม่ตรงกับเมนบอร์ด (" ++ jsOptToString (getAttr mb "ramType") ++ ")"⟩]
    else
      [⟨Level.ok, "RAM ✔ เมนบอร์ด ✔ (ชนิดแรมตรงกัน)"⟩]
  | _, _ => []

/-- GPU × Motherboard check: the motherboard must have a truthy
`pcieSlots` attribute. -/
def gpuMbNotes (parts : Selection) : List Note :=
  match parts Category.GPU, parts Category.Motherboard with
  | some _, some mb =>
    if !(match getAttr mb "pcieSlots" with
         | some v => truthy v
         | none => false) then
      [⟨Level.error, "เมนบอร์ดนี้ไม่มีสล็อต PCIe สำหรับการ์ดจอ"⟩]
    else
      [⟨Level.ok, "GPU ✔ เมนบอร์ด ✔ (มีสล็อต PCIe)"⟩]
  | _, _ => []

/-- `x?.join(", ") || "-"` as used in the case/motherboard error message. -/
def joinListOrDash : Option JVal → String
  | some (JVal.arr l) =>
    let j := String.intercalate ", " (l.map (fun e =>
      match e with
      | JVal.jnull => ""
      | v => jvalToString v))
    if j == "" then "-" else j
  | _ => "-"

/-- Case × Motherboard check:
`(case.attributes.formFactorSupport || []).includes(mb.attributes.formFactor)`. -/
def caseMbNotes (parts : Selection) : List Note :=
  match parts Category.Case, parts Category.Motherboard with
  | some pcCase, some mb =>
    let ok := jsIncludes (jsOrElse (getAttr pcCase "formFactorSupport") (JVal.arr []))
                         (getAttr mb "formFactor")
    if !ok then
      [⟨Level.error, "เคสรองรับ " ++ joinListOrDash (getAttr pcCase "formFactorSupport") ++
        " ไม่ตรงกับเมนบอร์ด (" ++ jsOptToString (getAttr mb "formFactor") ++ ")"⟩]
    else
      [⟨Level.ok, "เคส ✔ เมนบอร์ด ✔ (ขนาดตรงกัน)"⟩]
  | _, _ => []

/-- Cooler × CPU check:
`(cooler.attributes.socketSupport || []).includes(cpu.attributes.socket)`. -/
def coolerCpuNotes (parts : Selection) : List Note :=
  match parts Category.Cooler, parts Category.CPU with
  | some cooler, some cpu =>
    let ok := jsIncludes (jsOrElse (getAttr cooler "socketSupport") (JVal.arr []))
                         (getAttr cpu "socket")
    if !ok then
      [⟨Level.error, "ชุดระบายความร้อนไม่รองรับซ็อกเก็ต CPU (" ++
        jsOptToString (getAttr cpu "socket") ++ ")"⟩]
    else
      [⟨Level.ok, "คูลเลอร์ ✔ CPU ✔ (รองรับซ็อกเก็ต)"⟩]
  | _, _ => []

/-- `(mb.attributes.storage || []).join(", ")` as used in the storage error
message. -/
def joinListOrEmpty : Option JVal → String
  | some (JVal.arr l) =>
    String.intercalate ", " (l.map (fun e =>
      match e with
      | JVal.jnull => ""
      | v => jvalToString v))
  | _ => ""

/-- Storage × Motherboard check: performed only when the storage has a
truthy `interface` attribute and the motherboard a truthy `storage`
attribute; then list containment is tested. -/
def storageMbNotes (parts : Selection) : List Note :=
  match parts Category.Storage, parts Category.Motherboard with
  | some st, some mb =>
    if (match getAttr st "interface" with
        | some v => truthy v
        | none => false) &&
       (match getAttr mb "storage" with
        | some v => truthy v
        | none => false) then
      let ok := jsIncludes (jsOrElse (getAttr mb "storage") (JVal.arr []))
                           (getAttr st "interface")
      if !ok then
        [⟨Level.error, "สตอเรจ (" ++ jsOptToString (getAttr st "interface") ++
          ") ไม่ตรงกับพอร์ตบนเมนบอร์ด (" ++ joinListOrEmpty (getAttr mb "storage") ++ ")"⟩]
      else
        [⟨Level.ok, "สตอเรจ ✔ เมนบอร์ด ✔ (อินเทอร์เฟซตรงกัน)"⟩]
    else []
  | _, _ => []

/-- PSU wattage check: performed when a PSU is selected; warn when
`(psu.attributes.wattage || 0) < estimateWattage(parts)`. -/
def psuNotes (parts : Selection) : List Note :=
  match parts Category.PSU with
  | some psu =>
    let need := estimateWattage parts
    let has := jsOrElse (getAttr psu "wattage") (JVal.num 0)
    if jsLt has need then
      [⟨Level.warn, "กำลังไฟ PSU " ++ jvalToString has ++ "W อาจไม่พอ ต้องการอย่างน้อย ~" ++
        jvalToString need ++ "W"⟩]
    else
      [⟨Level.ok, "PSU เพียงพอ (ต้องการ ~" ++ jvalToString need ++ "W)"⟩]
  | none => []

/-- `notes.some(n => n.level === "error") ? "error" : notes.some(n => n.level === "warn") ? "warn" : "ok"`. -/
def computeLevel (notes : List Note) : Level :=
  if notes.any (fun n => decide (n.level = Level.error)) then Level.error
  else if notes.any (fun n => decide (n.level = Level.warn)) then Level.warn
  else Level.ok

/-- The result record of `checkCompatibility`. -/
structure CompatResult where
  level : Level
  notes : List Note

/-- `checkCompatibility` from `App.tsx`: the seven checks in source order,
each contributing its notes, then the overall level. -/
def checkCompatibility (parts : Selection) : CompatResult :=
  let notes := cpuMbNotes parts ++ ramMbNotes parts ++ gpuMbNotes parts ++
               caseMbNotes parts ++ coolerCpuNotes parts ++ storageMbNotes parts ++
               psuNotes parts
  ⟨computeLevel notes, notes⟩

/-- A spreadsheet cell as produced by `sheet_to_json` with `defval: ""`:
a string or a number. -/
inductive Cell where
  | str (s : String) : Cell
  | num (n : Int) : Cell
deriving DecidableEq

/-- A spreadsheet row: header name to cell value, in column order. -/
abbrev Row := List (String × Cell)

/-- JavaScript truthiness of a cell value. -/
def truthyCell : Cell → Bool
  | Cell.str s => s != ""
  | Cell.num n => n != 0

/-- Drop a leading run of `'s'` characters. -/
def dropS : List Char → List Char
  | 's' :: rest => dropS rest
  | l => l

/-- Character-list scan for the first `replace` of `normalizeHeader`: the
regex literal `/\\s+/g` denotes a backslash followed by one or more `s`,
and every such run is removed.  The fuel argument (instantiated with the
list length, an upper bound on the number of scan steps) keeps the
recursion structural. -/
def stripBSAux : Nat → List Char → List Char
  | 0, l => l
  | _ + 1, [] => []
  | f + 1, '\\' :: rest =>
    match rest with
    | 's' :: r2 => stripBSAux f (dropS r2)
    | _ => '\\' :: stripBSAux f rest
  | f + 1, c :: rest => c :: stripBSAux f rest

/-- `s.replace(/\\s+/g, "")` on a character list. -/
def stripBS (l : List Char) : List Char :=
  stripBSAux l.length l

/-- Is the character a lowercase ASCII letter or digit? -/
def isLowerAlnum (c : Char) : Bool :=
  decide (('a' ≤ c ∧ c ≤ 'z') ∨ ('0' ≤ c ∧ c ≤ '9'))

/-- `s.toLowerCase()` on the ASCII range (non-ASCII characters, such as
Thai script, are unaffected, as in the headers this program receives). -/
def toLowerStr (s : String) : String :=
  String.mk (s.data.map Char.toLower)

/-- `normalizeHeader` from `App.tsx`: lowercase, remove `\s`-runs, then
remove every character outside `[a-z0-9]`. -/
def normalizeHeader (s : String) : String :=
  String.mk ((stripBS (toLowerStr s).data).filter isLowerAlnum)

/-- Build the normalized-header lookup map of a row:
`keys.forEach(k => map[normalizeHeader(k)] = row[k])`. -/
def buildMap (row : Row) : List (String × Cell) :=
  row.foldl (fun m kv => objSet m (normalizeHeader kv.1) kv.2) []

/-- JavaScript `a || b` on possibly-`undefined` cell values. -/
def orC (a b : Option Cell) : Option Cell :=
  match a with
  | some v => if truthyCell v then some v else b
  | none => b

/-- A JavaScript `||`-chain ending in a literal default. -/
def orCells : List (Option Cell) → Cell → Cell
  | [], d => d
  | v :: rest, d =>
    match v with
    | some c => if truthyCell c then c else orCells rest d
    | none => orCells rest d

/-- `x + ""` string coercion of a possibly-`undefined` cell value. -/
def cellToString : Cell → String
  | Cell.str s => s
  | Cell.num n => toString n

/-- `x + ""` where `x` may be `undefined`. -/
def cellOptToString : Option Cell → String
  | some c => cellToString c
  | none => "undefined"

/-- `s || ''` on strings. -/
def jsOrStr (a b : String) : String :=
  if a == "" then b else a

/-- `Number(...)` coercion of a cell (`JsNumber.nan` when it fails). -/
def cellToJsNumber : Cell → JsNumber
  | Cell.num n => JsNumber.val n
  | Cell.str s =>
    match strToNumberOpt s with
    | some n => JsNumber.val n
    | none => JsNumber.nan

/-- `String.prototype.split(",")` on a character list. -/
def splitComma : List Char → List (List Char)
  | [] => [[]]
  | ',' :: rest => [] :: splitComma rest
  | c :: rest =>
    match splitComma rest with
    | [] => [[c]]
    | g :: gs => (c :: g) :: gs

/-- `String.prototype.trim()`: strip leading and trailing whitespace. -/
def trimStr (s : String) : String :=
  String.mk (((s.data.dropWhile Char.isWhitespace).reverse.dropWhile Char.isWhitespace).reverse)

/-- Cell-to-attribute coercion of the alias loop: a string containing a
comma is split into a list of trimmed strings; otherwise the value is
coerced to a number when `Number(v)` is not `NaN`, else kept as a string. -/
def coerceCell : Cell → JVal
  | Cell.num n => JVal.num n
  | Cell.str s =>
    if strIncludes s "," then
      JVal.arr ((splitComma s.data).map (fun cs => JVal.str (trimStr (String.mk cs))))
    else
      match strToNumberOpt s with
      | some n => JVal.num n
      | none => JVal.str s

/-- The `aliasPairs` table of `App.tsx`, in source order. -/
def aliasPairs : List (String × List String) :=
  [("socket", ["socket", "ซ็อกเก็ต"]),
   ("tdp", ["tdp"]),
   ("ramType", ["ramtype", "แรม", "ram"]),
   ("formFactor", ["formfactor", "ขนาด"]),
   ("formFactorSupport", ["formfactorsupport", "รองรับเมนบอร์ด"]),
   ("pcieSlots", ["pcieslots"]),
   ("interface", ["interface", "อินเทอร์เฟซ"]),
   ("storage", ["storage", "พอร์ตเก็บข้อมูล"]),
   ("wattage", ["wattage", "กำลังไฟ", "w"]),
   ("sizeGB", ["sizegb", "ขนาดgb", "ความจุ"]),
   ("socketSupport", ["socketsupport", "รองรับซ็อกเก็ต"])]

/-- First alias whose normalized header maps to a defined, non-`""` cell. -/
def firstAliasValue (m : List (String × Cell)) : List String → Option Cell
  | [] => none
  | a :: rest =>
    match objGet m (normalizeHeader a) with
    | some c => if c == Cell.str "" then firstAliasValue m rest else some c
    | none => firstAliasValue m rest

/-- The alias-resolution loop building the `attributes` object. -/
def resolveAliases (m : List (String × Cell)) : List (String × JVal) :=
  aliasPairs.foldl (fun acc kv =>
    match firstAliasValue m kv.2 with
    | some c => objSet acc kv.1 (coerceCell c)
    | none => acc) []

/-- The own enumerable properties `Object.assign` copies from a parsed
JSON value: object fields, array elements under their index keys, string
characters under their index keys, nothing for primitives. -/
def ownProps : JVal → List (String × JVal)
  | JVal.obj fields => fields
  | JVal.arr elems => elems.enum.map (fun p => (toString p.1, p.2))
  | JVal.str s => s.data.enum.map (fun p => (toString p.1, JVal.str (String.mk [p.2])))
  | _ => []

/-- The JSON-attributes merge step: when the row has a truthy cell under
the normalized header `attributes`, parse it when it is a string
(`JSON.parse` failure is swallowed, keeping the alias-resolved
attributes) and `Object.assign` the result's own properties into the
attribute object; a numeric cell contributes no own properties. -/
def mergeJsonAttrs (jsonParse : String → Option JVal)
    (m : List (String × Cell)) (base : List (String × JVal)) : List (String × JVal) :=
  match objGet m "attributes" with
  | some c =>
    if truthyCell c then
      match c with
      | Cell.str s =>
        match jsonParse s with
        | some j => objAssign base (ownProps j)
        | none => base
      | Cell.num n => objAssign base (ownProps (JVal.num n))
    else base
  | none => base

/-- The per-row body of `parseWorkbookToProducts`, with the external
`JSON.parse` as a parameter and the generated id as a parameter. -/
def parseRow (jsonParse : String → Option JVal) (newId : String) (row : Row) : Product :=
  let m := buildMap row
  let rawCategory := cellOptToString (orC (objGet m "category")
    (orC (objGet m "หมวดหมู่") (objGet m "type")))
  { id := newId
    name := cellToString (orCells [objGet m "name", objGet m "สินค้า", objGet m "product"]
      (Cell.str "Unnamed"))
    category := (CATEGORIES.find? (fun c =>
      toLowerStr (categoryName c) == toLowerStr (jsOrStr rawCategory ""))).getD Category.CPU
    price := cellToJsNumber (orCells [objGet m "price", objGet m "ราคา"] (Cell.num 0))
    stock := cellToJsNumber (orCells [objGet m "stock", objGet m "คงเหลือ", objGet m "จำนวน"]
      (Cell.num 0))
    attributes := mergeJsonAttrs jsonParse m (resolveAliases m) }

/-- JSON whitespace. -/
def isJsonWs (c : Char) : Bool :=
  decide (c = ' ' ∨ c = '\t' ∨ c = '\n' ∨ c = '\r')

/-- Skip JSON whitespace. -/
def skipWs (cs : List Char) : List Char :=
  cs.dropWhile isJsonWs

/-- The JSON string escape table (escape letter, denoted character). -/
def escTable : List (Char × Char) :=
  [('"', '"'), ('\\', '\\'), ('/', '/'), ('n', '\n'), ('t', '\t'),
   ('r', '\r'), ('b', '\x08'), ('f', '\x0c')]

/-- One JSON string escape character, via the table. -/
def escChar (e : Char) : Option Char :=
  (escTable.find? (fun pr => pr.1 == e)).map (fun pr => pr.2)

/-- Parse the body of a JSON string (after the opening quote). -/
def pStrChars : Nat → List Char → Option (List Char × List Char)
  | 0, _ => none
  | _ + 1, [] => none
  | f + 1, c :: rest =>
    if c = '"' then some ([], rest)
    else if c = '\\' then
      match rest with
      | e :: r2 =>
        match escChar e with
        | some d => (pStrChars f r2).map (fun p => (d :: p.1, p.2))
        | none => none
      | [] => none
    else (pStrChars f rest).map (fun p => (c :: p.1, p.2))

/-- Parse a JSON integer (optional minus sign, decimal digits). -/
def pInt (cs : List Char) : Option (Int × List Char) :=
  match cs with
  | '-' :: rest =>
    let ds := rest.takeWhile Char.isDigit
    if ds.isEmpty then none
    else some (-(Int.ofNat (digitsToNat ds)), rest.dropWhile Char.isDigit)
  | _ =>
    let ds := cs.takeWhile Char.isDigit
    if ds.isEmpty then none
    else some (Int.ofNat (digitsToNat ds), cs.dropWhile Char.isDigit)

/-- Does `cs` start with the characters of `lit`? If so return the rest. -/
def pLit (lit : String) (cs : List Char) : Option (List Char) :=
  if headMatches cs lit.data then some (cs.drop lit.data.length) else none

/-- Mode of the JSON recursive-descent parser: a value, the items of an
array (after `[`), or the members of an object (after the opening
brace). -/
inductive PMode where
  | value | arrItems | objItems

/-- JSON recursive descent on the fragment used here (null, booleans,
integers, strings, arrays, objects), structural in its fuel; item modes
return their collection wrapped in `JVal.arr`/`JVal.obj`. -/
def pRun : Nat → PMode → List Char → Option (JVal × List Char)
  | 0, _, _ => none
  | fuel + 1, PMode.value, cs =>
    match skipWs cs with
    | [] => none
    | c :: rest =>
      if c = 'n' then (pLit "ull" rest).map (fun r => (JVal.jnull, r))
      else if c = 't' then (pLit "rue" rest).map (fun r => (JVal.jbool true, r))
      else if c = 'f' then (pLit "alse" rest).map (fun r => (JVal.jbool false, r))
      else if c = '"' then
        (pStrChars (rest.length + 1) rest).map (fun p => (JVal.str (String.mk p.1), p.2))
      else if c = '[' then
        match skipWs rest with
        | ']' :: r2 => some (JVal.arr [], r2)
        | r2 => pRun fuel PMode.arrItems r2
      else if c = '\x7b' then
        match skipWs rest with
        | '\x7d' :: r2 => some (JVal.obj [], r2)
        | r2 => pRun fuel PMode.objItems r2
      else
        (pInt (c :: rest)).map (fun p => (JVal.num p.1, p.2))
  | fuel + 1, PMode.arrItems, cs =>
    match pRun fuel PMode.value cs with
    | some (v, r) =>
      match skipWs r with
      | ',' :: r2 =>
        match pRun fuel PMode.arrItems r2 with
        | some (JVal.arr l, rr) => some (JVal.arr (v :: l), rr)
        | _ => none
      | ']' :: r2 => some (JVal.arr [v], r2)
      | _ => none
    | none => none
  | fuel + 1, PMode.objItems, cs =>
    match skipWs cs with
    | '"' :: r =>
      match pStrChars (r.length + 1) r with
      | some (key, r2) =>
        match skipWs r2 with
        | ':' :: r3 =>
          match pRun fuel PMode.value r3 with
          | some (v, r4) =>
            match skipWs r4 with
            | ',' :: r5 =>
              match pRun fuel PMode.objItems r5 with
              | some (JVal.obj l, rr) => some (JVal.obj ((String.mk key, v) :: l), rr)
              | _ => none
            | c5 :: r5 =>
              if c5 = '\x7d' then some (JVal.obj [(String.mk key, v)], r5) else none
            | [] => none
          | none => none
        | _ => none
      | none => none
    | _ => none

/-- Executable `JSON.parse` on the fragment used in this development:
parse one value and require only whitespace to remain. -/
def jsonParseImpl (s : String) : Option JVal :=
  match pRun (2 * s.data.length + 2) PMode.value s.data with
  | some (v, r) => if (skipWs r).isEmpty then some v else none
  | none => none

/-- The application state relevant to the catalog/builder claims. -/
structure AppState where
  inventory : List Product
  build : Selection

/-- `deleteProduct` from `App.tsx`:
`setInventory(prev => prev.filter(p => p.id !== id))`. -/
def deleteProduct (s : AppState) (id : String) : AppState :=
  { s with inventory := s.inventory.filter (fun p => p.id != id) }

/-- `{...prev, [cat]: product || undefined}` on the selection map. -/
def setSlot (build : Selection) (cat : Category) (product : Option Product) : Selection :=
  fun c => if c = cat then product else build c

/-- `selectPart` from `App.tsx`. -/
def selectPart (s : AppState) (cat : Category) (product : Option Product) : AppState :=
  { s with build := setSlot s.build cat product }

/-! ### Spec-side helper predicates and functions. -/

/-- The attribute value is absent or a string (the typed domain of the
socket/type comparisons in the specification). -/
def strOrNoneB : Option JVal → Bool
  | none => true
  | some (JVal.str _) => true
  | _ => false

/-- The attribute value is absent or a number (the typed domain of the
tdp/wattage arithmetic in the specification). -/
def numOrAbsentB : Option JVal → Bool
  | none => true
  | some (JVal.num _) => true
  | _ => false

/-- The specification's reading "the attribute's value if present (and
numeric), else 0". -/
def numOrZero : Option JVal → Int
  | some (JVal.num n) => n
  | _ => 0

/-! ### Helper lemmas. -/

theorem jsStrictEqOpt_eq_iff (a b : Option JVal) (ha : strOrNoneB a = true) :
    jsStrictEqOpt a b = true ↔ a = b := by
  cases a with
  | none =>
    cases b with
    | none => simp [jsStrictEqOpt]
    | some w => simp [jsStrictEqOpt]
  | some v =>
    cases v with
    | str s =>
      cases b with
      | none => simp [jsStrictEqOpt]
      | some w =>
        cases w with
        | str t => simp [jsStrictEqOpt, strictEq]
        | jnull => simp [jsStrictEqOpt, strictEq]
        | jbool c => simp [jsStrictEqOpt, strictEq]
        | num n => simp [jsStrictEqOpt, strictEq]
        | arr l => simp [jsStrictEqOpt, strictEq]
        | obj fs => simp [jsStrictEqOpt, strictEq]
    | jnull => simp [strOrNoneB] at ha
    | jbool c => simp [strOrNoneB] at ha
    | num n => simp [strOrNoneB] at ha
    | arr l => simp [strOrNoneB] at ha
    | obj fs => simp [strOrNoneB] at ha

theorem jsOrElse_num (o : Option JVal) (h : numOrAbsentB o = true) :
    jsOrElse o (JVal.num 0) = JVal.num (numOrZero o) := by
  cases o with
  | none => rfl
  | some v =>
    cases v with
    | num n =>
      by_cases hn : n = 0
      · subst hn; rfl
      · simp [jsOrElse, truthy, numOrZero, hn]
    | jnull => simp [numOrAbsentB] at h
    | jbool c => simp [numOrAbsentB] at h
    | str s => simp [numOrAbsentB] at h
    | arr l => simp [numOrAbsentB] at h
    | obj fs => simp [numOrAbsentB] at h

theorem computeLevel_error_iff (l : List Note) :
    computeLevel l = Level.error ↔ ∃ n, n ∈ l ∧ n.level = Level.error := by
  unfold computeLevel
  by_cases h1 : l.any (fun n => decide (n.level = Level.error)) = true
  · rw [if_pos h1]
    constructor
    · intro _
      simpa [List.any_eq_true] using h1
    · intro _; rfl
  · rw [if_neg h1]
    have hno : ¬ ∃ n, n ∈ l ∧ n.level = Level.error := by
      rintro ⟨n, hn, he⟩
      exact h1 (List.any_eq_true.mpr ⟨n, hn, by simpa using he⟩)
    by_cases h2 : l.any (fun n => decide (n.level = Level.warn)) = true
    · rw [if_pos h2]; simp [hno]
    · rw [if_neg h2]; simp [hno]

theorem computeLevel_warn_iff (l : List Note) :
    computeLevel l = Level.warn ↔
      (¬ ∃ n, n ∈ l ∧ n.level = Level.error) ∧ (∃ n, n ∈ l ∧ n.level = Level.warn) := by
  unfold computeLevel
  by_cases h1 : l.any (fun n => decide (n.level = Level.error)) = true
  · rw [if_pos h1]
    have hyes : ∃ n, n ∈ l ∧ n.level = Level.error := by
      simpa [List.any_eq_true] using h1
    simp [hyes]
  · rw [if_neg h1]
    have hno : ¬ ∃ n, n ∈ l ∧ n.level = Level.error := by
      rintro ⟨n, hn, he⟩
      exact h1 (List.any_eq_true.mpr ⟨n, hn, by simpa using he⟩)
    by_cases h2 : l.any (fun n => decide (n.level = Level.warn)) = true
    · rw [if_pos h2]
      have hyes2 : ∃ n, n ∈ l ∧ n.level = Level.warn := by
        simpa [List.any_eq_true] using h2
      simp [hno, hyes2]
    · rw [if_neg h2]
      have hno2 : ¬ ∃ n, n ∈ l ∧ n.level = Level.warn := by
        rintro ⟨n, hn, he⟩
        exact h2 (List.any_eq_true.mpr ⟨n, hn, by simpa using he⟩)
      simp [hno, hno2]

theorem computeLevel_ok_iff (l : List Note) :
    computeLevel l = Level.ok ↔
      (¬ ∃ n, n ∈ l ∧ n.level = Level.error) ∧ (¬ ∃ n, n ∈ l ∧ n.level = Level.warn) := by
  unfold computeLevel
  by_cases h1 : l.any (fun n => decide (n.level = Level.error)) = true
  · rw [if_pos h1]
    have hyes : ∃ n, n ∈ l ∧ n.level = Level.error := by
      simpa [List.any_eq_true] using h1
    simp [hyes]
  · rw [if_neg h1]
    have hno : ¬ ∃ n, n ∈ l ∧ n.level = Level.error := by
      rintro ⟨n, hn, he⟩
      exact h1 (List.any_eq_true.mpr ⟨n, hn, by simpa using he⟩)
    by_cases h2 : l.any (fun n => decide (n.level = Level.warn)) = true
    · rw [if_pos h2]
      have hyes2 : ∃ n, n ∈ l ∧ n.level = Level.warn := by
        simpa [List.any_eq_true] using h2
      simp [hyes2]
    · rw [if_neg h2]
      have hno2 : ¬ ∃ n, n ∈ l ∧ n.level = Level.warn := by
        rintro ⟨n, hn, he⟩
        exact h2 (List.any_eq_true.mpr ⟨n, hn, by simpa using he⟩)
      simp [hno, hno2]

theorem estimateWattage_num (parts : Selection)
    (h1 : numOrAbsentB (slotAttr parts Category.CPU "tdp") = true)
    (h2 : numOrAbsentB (slotAttr parts Category.GPU "tdp") = true) :
    estimateWattage parts =
      JVal.num (numOrZero (slotAttr parts Category.CPU "tdp") +
        numOrZero (slotAttr parts Category.GPU "tdp") + 100) := by
  unfold estimateWattage
  rw [jsOrElse_num _ h1, jsOrElse_num _ h2]
  simp [jsAdd]

theorem objGet_objSet {α : Type} (m : List (String × α)) (k : String) (v : α) :
    objGet (objSet m k v) k = some v := by
  induction m with
  | nil => simp [objSet, objGet, List.find?]
  | cons kv rest ih =>
    by_cases h : kv.1 == k
    · cases kv with
      | mk k' v' =>
        simp only [objSet]
        rw [if_pos h]
        simp [objGet, List.find?]
    · cases kv with
      | mk k' v' =>
        simp only [objSet]
        rw [if_neg h]
        simp only [objGet, List.find?] at ih ⊢
        rw [Bool.not_eq_true] at h
        rw [h]
        exact ih

theorem cpuMbNotes_eq (parts : Selection) (cpu mb : Product)
    (hc : parts Category.CPU = some cpu) (hm : parts Category.Motherboard = some mb) :
    cpuMbNotes parts =
      if !jsStrictEqOpt (getAttr cpu "socket") (getAttr mb "socket") then
        [⟨Level.error, "CPU socket (" ++ jsOptToString (getAttr cpu "socket") ++
          ") ไม่ตรงกับเมนบอร์ด (" ++ jsOptToString (getAttr mb "socket") ++ ")"⟩]
      else [⟨Level.ok, "CPU ✔ เมนบอร์ด ✔ (ซ็อกเก็ตตรงกัน)"⟩] := by
  unfold cpuMbNotes
  rw [hc, hm]

theorem ramMbNotes_eq (parts : Selection) (ram mb : Product)
    (hr : parts Category.RAM = some ram) (hm : parts Category.Motherboard = some mb) :
    ramMbNotes parts =
      if !jsStrictEqOpt (getAttr ram "type") (getAttr mb "ramType") then
        [⟨Level.error, "RAM (" ++ jsOptToString (getAttr ram "type") ++
          ") ไม่ตรงกับเมนบอร์ด (" ++ jsOptToString (getAttr mb "ramType") ++ ")"⟩]
      else [⟨Level.ok, "RAM ✔ เมนบอร์ด ✔ (ชนิดแรมตรงกัน)"⟩] := by
  unfold ramMbNotes
  rw [hr, hm]

theorem psuNotes_eq (parts : Selection) (psu : Product)
    (hp : parts Category.PSU = some psu) :
    psuNotes parts =
      if jsLt (jsOrElse (getAttr psu "wattage") (JVal.num 0)) (estimateWattage parts) then
        [⟨Level.warn, "กำลังไฟ PSU " ++ jvalToString (jsOrElse (getAttr psu "wattage") (JVal.num 0)) ++
          "W อาจไม่พอ ต้องการอย่างน้อย ~" ++ jvalToString (estimateWattage parts) ++ "W"⟩]
      else [⟨Level.ok, "PSU เพียงพอ (ต้องการ ~" ++ jvalToString (estimateWattage parts) ++ "W)"⟩] := by
  unfold psuNotes
  rw [hp]

/-! ### Concrete fixtures (mirroring entries of `DEMO_DATA`). -/

/-- A CPU with socket AM5 and tdp 65 (demo catalog entry). -/
def cpuA : Product :=
  ⟨"c1", "AMD Ryzen 5 7600", Category.CPU, JsNumber.val 7490, JsNumber.val 8,
   [("socket", JVal.str "AM5"), ("tdp", JVal.num 65)]⟩

/-- An AM5/DDR5/ATX motherboard (demo catalog entry). -/
def mbA : Product :=
  ⟨"m1", "ASUS TUF B650-PLUS", Category.Motherboard, JsNumber.val 7290, JsNumber.val 6,
   [("socket", JVal.str "AM5"), ("ramType", JVal.str "DDR5"), ("formFactor", JVal.str "ATX"),
    ("pcieSlots", JVal.num 2), ("storage", JVal.arr [JVal.str "M.2 NVMe", JVal.str "SATA"])]⟩

/-- An LGA1700 motherboard (demo catalog entry, trimmed attributes). -/
def mbB : Product :=
  ⟨"m2", "MSI PRO B760M-A", Category.Motherboard, JsNumber.val 4990, JsNumber.val 9,
   [("socket", JVal.str "LGA1700"), ("ramType", JVal.str "DDR5")]⟩

/-- A 550 W power supply (demo catalog entry). -/
def psuA : Product :=
  ⟨"p1", "Antec NeoECO 550", Category.PSU, JsNumber.val 1890, JsNumber.val 11,
   [("wattage", JVal.num 550)]⟩

/-- A DDR5 RAM module (demo catalog entry). -/
def ramA : Product :=
  ⟨"r1", "Kingston Fury 16GB", Category.RAM, JsNumber.val 2190, JsNumber.val 15,
   [("type", JVal.str "DDR5"), ("sizeGB", JVal.num 16)]⟩

/-- A CPU with an empty attribute bag (no `socket`, no `tdp`). -/
def cpuNoSock : Product :=
  ⟨"c9", "cpuX", Category.CPU, JsNumber.val 0, JsNumber.val 0, []⟩

/-- A motherboard with an empty attribute bag. -/
def mbNoSock : Product :=
  ⟨"m9", "mbX", Category.Motherboard, JsNumber.val 0, JsNumber.val 0, []⟩

/-- A RAM module with an empty attribute bag. -/
def ramNoType : Product :=
  ⟨"r9", "ramX", Category.RAM, JsNumber.val 0, JsNumber.val 0, []⟩

/-- The empty selection. -/
def emptySel : Selection := fun _ => none

/-- The spec §8 example selection: AM5 CPU, AM5 board, 550 W PSU. -/
def selScenario : Selection := fun c =>
  match c with
  | Category.CPU => some cpuA
  | Category.Motherboard => some mbA
  | Category.PSU => some psuA
  | _ => none

/-- Selection with CPU, motherboard and RAM all lacking the compared
attributes. -/
def selAttrless : Selection := fun c =>
  match c with
  | Category.CPU => some cpuNoSock
  | Category.Motherboard => some mbNoSock
  | Category.RAM => some ramNoType
  | _ => none

/-- An application state with one catalog product that is also selected. -/
def stateA : AppState :=
  ⟨[cpuA, mbA], fun c =>
    match c with
    | Category.CPU => some cpuA
    | _ => none⟩

/-! ### Claim theorems. -/

/-- C4: every pairwise check of `checkCompatibility` contributes no note when
either of its two categories is absent from the selection (the PSU check
requires only the PSU), and the emitted note list is exactly the
concatenation of the seven checks' contributions in source order. -/
theorem checks_require_both_sides (parts : Selection) :
    (checkCompatibility parts).notes =
      cpuMbNotes parts ++ ramMbNotes parts ++ gpuMbNotes parts ++ caseMbNotes parts ++
        coolerCpuNotes parts ++ storageMbNotes parts ++ psuNotes parts ∧
    ((parts Category.CPU = none ∨ parts Category.Motherboard = none) → cpuMbNotes parts = []) ∧
    ((parts Category.RAM = none ∨ parts Category.Motherboard = none) → ramMbNotes parts = []) ∧
    ((parts Category.GPU = none ∨ parts Category.Motherboard = none) → gpuMbNotes parts = []) ∧
    ((parts Category.Case = none ∨ parts Category.Motherboard = none) → caseMbNotes parts = []) ∧
    ((parts Category.Cooler = none ∨ parts Category.CPU = none) → coolerCpuNotes parts = []) ∧
    ((parts Category.Storage = none ∨ parts Category.Motherboard = none) →
      storageMbNotes parts = []) ∧
    (parts Category.PSU = none → psuNotes parts = []) := by
  refine ⟨rfl, ?_, ?_, ?_, ?_, ?_, ?_, ?_⟩
  · rintro (h | h)
    · unfold cpuMbNotes; rw [h]
    · unfold cpuMbNotes; rw [h]; cases parts Category.CPU <;> rfl
  · rintro (h | h)
    · unfold ramMbNotes; rw [h]
    · unfold ramMbNotes; rw [h]; cases parts Category.RAM <;> rfl
  · rintro (h | h)
    · unfold gpuMbNotes; rw [h]
    · unfold gpuMbNotes; rw [h]; cases parts Category.GPU <;> rfl
  · rintro (h | h)
    · unfold caseMbNotes; rw [h]
    · unfold caseMbNotes; rw [h]; cases parts Category.Case <;> rfl
  · rintro (h | h)
    · unfold coolerCpuNotes; rw [h]
    · unfold coolerCpuNotes; rw [h]; cases parts Category.Cooler <;> rfl
  · rintro (h | h)
    · unfold storageMbNotes; rw [h]
    · unfold storageMbNotes; rw [h]; cases parts Category.Storage <;> rfl
  · intro h
    unfold psuNotes; rw [h]

/-- C4 witness: at the empty selection every check contributes nothing. -/
theorem checks_require_both_sides_witness :
    cpuMbNotes emptySel = [] ∧ ramMbNotes emptySel = [] ∧ gpuMbNotes emptySel = [] ∧
    caseMbNotes emptySel = [] ∧ coolerCpuNotes emptySel = [] ∧
    storageMbNotes emptySel = [] ∧ psuNotes emptySel = [] := by
  have h := checks_require_both_sides emptySel
  exact ⟨h.2.1 (Or.inl rfl), h.2.2.1 (Or.inl rfl), h.2.2.2.1 (Or.inl rfl),
    h.2.2.2.2.1 (Or.inl rfl), h.2.2.2.2.2.1 (Or.inl rfl),
    h.2.2.2.2.2.2.1 (Or.inl rfl), h.2.2.2.2.2.2.2 rfl⟩

/-- C2 counterexample: with CPU and Motherboard both selected but both
lacking a `socket` attribute, the performed CPU × Motherboard check emits
an `ok` note (`undefined !== undefined` is false), not an error note, and
the overall level is `ok` — refuting "absence of a required attribute …
yields an error-level note, never an ok note". -/
theorem missing_socket_both_sides_ok :
    cpuMbNotes selAttrless = [⟨Level.ok, "CPU ✔ เมนบอร์ด ✔ (ซ็อกเก็ตตรงกัน)"⟩] ∧
    getAttr cpuNoSock "socket" = none ∧ getAttr mbNoSock "socket" = none ∧
    (checkCompatibility selAttrless).level = Level.ok := ⟨rfl, rfl, rfl, rfl⟩

/-- C2 amended: in the strict-equality checks (CPU × Motherboard socket,
RAM × Motherboard type), absence of the compared attribute on exactly one
side yields an error note; absence on both sides makes the strict
comparison succeed and yields an ok note; no case throws. -/
theorem strict_checks_missing_attr (parts : Selection) (cpu mb ram : Product)
    (hc : parts Category.CPU = some cpu) (hm : parts Category.Motherboard = some mb)
    (hr : parts Category.RAM = some ram) :
    (getAttr cpu "socket" = none → getAttr mb "socket" ≠ none →
      (cpuMbNotes parts).map Note.level = [Level.error]) ∧
    (getAttr cpu "socket" ≠ none → getAttr mb "socket" = none →
      (cpuMbNotes parts).map Note.level = [Level.error]) ∧
    (getAttr cpu "socket" = none → getAttr mb "socket" = none →
      (cpuMbNotes parts).map Note.level = [Level.ok]) ∧
    (getAttr ram "type" = none → getAttr mb "ramType" ≠ none →
      (ramMbNotes parts).map Note.level = [Level.error]) ∧
    (getAttr ram "type" ≠ none → getAttr mb "ramType" = none →
      (ramMbNotes parts).map Note.level = [Level.error]) ∧
    (getAttr ram "type" = none → getAttr mb "ramType" = none →
      (ramMbNotes parts).map Note.level = [Level.ok]) := by
  refine ⟨?_, ?_, ?_, ?_, ?_, ?_⟩
  · intro h1 h2
    obtain ⟨v, hv⟩ := Option.ne_none_iff_exists'.mp h2
    rw [cpuMbNotes_eq parts cpu mb hc hm, h1, hv]
    rfl
  · intro h1 h2
    obtain ⟨v, hv⟩ := Option.ne_none_iff_exists'.mp h1
    rw [cpuMbNotes_eq parts cpu mb hc hm, h2, hv]
    rfl
  · intro h1 h2
    rw [cpuMbNotes_eq parts cpu mb hc hm, h1, h2]
    rfl
  · intro h1 h2
    obtain ⟨v, hv⟩ := Option.ne_none_iff_exists'.mp h2
    rw [ramMbNotes_eq parts ram mb hr hm, h1, hv]
    rfl
  · intro h1 h2
    obtain ⟨v, hv⟩ := Option.ne_none_iff_exists'.mp h1
    rw [ramMbNotes_eq parts ram mb hr hm, h2, hv]
    rfl
  · intro h1 h2
    rw [ramMbNotes_eq parts ram mb hr hm, h1, h2]
    rfl

/-- C2 amended witness: both strict checks at a selection whose CPU,
motherboard and RAM all lack the compared attributes. -/
theorem strict_checks_missing_attr_witness :
    selAttrless Category.CPU = some cpuNoSock ∧
    selAttrless Category.Motherboard = some mbNoSock ∧
    selAttrless Category.RAM = some ramNoType ∧
    (cpuMbNotes selAttrless).map Note.level = [Level.ok] ∧
    (ramMbNotes selAttrless).map Note.level = [Level.ok] := by
  have h := strict_checks_missing_attr selAttrless cpuNoSock mbNoSock ramNoType rfl rfl rfl
  exact ⟨rfl, rfl, rfl, h.2.2.1 rfl rfl, h.2.2.2.2.2 rfl rfl⟩

/-- C3: the overall level of `checkCompatibility` is `error` iff some note
is `error`, `warn` iff no note is `error` and some note is `warn`, `ok`
iff no note is `error` or `warn`; the fully empty selection yields the
empty note list with overall level `ok`. -/
theorem overall_level_rule (parts : Selection) :
    ((checkCompatibility parts).level = Level.error ↔
      ∃ n, n ∈ (checkCompatibility parts).notes ∧ n.level = Level.error) ∧
    ((checkCompatibility parts).level = Level.warn ↔
      (¬ ∃ n, n ∈ (checkCompatibility parts).notes ∧ n.level = Level.error) ∧
      (∃ n, n ∈ (checkCompatibility parts).notes ∧ n.level = Level.warn)) ∧
    ((checkCompatibility parts).level = Level.ok ↔
      (¬ ∃ n, n ∈ (checkCompatibility parts).notes ∧ n.level = Level.error) ∧
      (¬ ∃ n, n ∈ (checkCompatibility parts).notes ∧ n.level = Level.warn)) ∧
    ((∀ c, parts c = none) → checkCompatibility parts = ⟨Level.ok, []⟩) := by
  refine ⟨computeLevel_error_iff _, computeLevel_warn_iff _, computeLevel_ok_iff _, ?_⟩
  intro h
  unfold checkCompatibility cpuMbNotes ramMbNotes gpuMbNotes caseMbNotes coolerCpuNotes
    storageMbNotes psuNotes
  rw [h Category.CPU, h Category.Motherboard, h Category.RAM, h Category.GPU,
    h Category.Case, h Category.Cooler, h Category.Storage, h Category.PSU]
  rfl

/-- C3 witness: the rule evaluated at the empty selection. -/
theorem overall_level_rule_witness :
    (∀ c, emptySel c = none) ∧ checkCompatibility emptySel = ⟨Level.ok, []⟩ := by
  have h : ∀ c, emptySel c = none := fun c => rfl
  exact ⟨h, (overall_level_rule emptySel).2.2.2 h⟩

/-- C1: when both a CPU and a motherboard are selected (with string-typed
socket attributes where present), `checkCompatibility` emits exactly one
CPU × Motherboard note, first in its note list; its level is `error` iff
the two `socket` attribute values differ under exact equality and `ok`
iff they are equal. -/
theorem cpuMb_socket_note (parts : Selection) (cpu mb : Product)
    (hc : parts Category.CPU = some cpu) (hm : parts Category.Motherboard = some mb)
    (hs1 : strOrNoneB (getAttr cpu "socket") = true)
    (hs2 : strOrNoneB (getAttr mb "socket") = true) :
    ∃ n : Note,
      cpuMbNotes parts = [n] ∧
      (checkCompatibility parts).notes =
        n :: (ramMbNotes parts ++ gpuMbNotes parts ++ caseMbNotes parts ++
          coolerCpuNotes parts ++ storageMbNotes parts ++ psuNotes parts) ∧
      (n.level = Level.error ↔ getAttr cpu "socket" ≠ getAttr mb "socket") ∧
      (n.level = Level.ok ↔ getAttr cpu "socket" = getAttr mb "socket") := by
  have key := jsStrictEqOpt_eq_iff (getAttr cpu "socket") (getAttr mb "socket") hs1
  by_cases h : jsStrictEqOpt (getAttr cpu "socket") (getAttr mb "socket") = true
  · have heq : getAttr cpu "socket" = getAttr mb "socket" := key.mp h
    have hnote : cpuMbNotes parts = [⟨Level.ok, "CPU ✔ เมนบอร์ด ✔ (ซ็อกเก็ตตรงกัน)"⟩] := by
      rw [cpuMbNotes_eq parts cpu mb hc hm, h]
      rfl
    refine ⟨_, hnote, ?_, ?_, ?_⟩
    · simp [checkCompatibility, hnote]
    · exact ⟨(fun hlev => nomatch hlev), (fun hne => absurd heq hne)⟩
    · exact ⟨fun _ => heq, fun _ => rfl⟩
  · rw [Bool.not_eq_true] at h
    have hne : getAttr cpu "socket" ≠ getAttr mb "socket" := by
      intro he
      have hk := key.mpr he
      rw [h] at hk
      cases hk
    have hnote : cpuMbNotes parts =
        [⟨Level.error, "CPU socket (" ++ jsOptToString (getAttr cpu "socket") ++
          ") ไม่ตรงกับเมนบอร์ด (" ++ jsOptToString (getAttr mb "socket") ++ ")"⟩] := by
      rw [cpuMbNotes_eq parts cpu mb hc hm, h]
      rfl
    refine ⟨_, hnote, ?_, ?_, ?_⟩
    · simp [checkCompatibility, hnote]
    · exact ⟨fun _ => hne, fun _ => rfl⟩
    · exact ⟨(fun hlev => nomatch hlev), (fun he => absurd he hne)⟩

/-- C1 witness: the AM5 CPU with the AM5 motherboard of the demo catalog. -/
theorem cpuMb_socket_note_witness :
    selScenario Category.CPU = some cpuA ∧ selScenario Category.Motherboard = some mbA ∧
    strOrNoneB (getAttr cpuA "socket") = true ∧ strOrNoneB (getAttr mbA "socket") = true ∧
    ∃ n : Note,
      cpuMbNotes selScenario = [n] ∧
      (checkCompatibility selScenario).notes =
        n :: (ramMbNotes selScenario ++ gpuMbNotes selScenario ++ caseMbNotes selScenario ++
          coolerCpuNotes selScenario ++ storageMbNotes selScenario ++ psuNotes selScenario) ∧
      (n.level = Level.error ↔ getAttr cpuA "socket" ≠ getAttr mbA "socket") ∧
      (n.level = Level.ok ↔ getAttr cpuA "socket" = getAttr mbA "socket") :=
  ⟨rfl, rfl, rfl, rfl, cpuMb_socket_note selScenario cpuA mbA rfl rfl rfl rfl⟩

/-- C5: with numeric-or-absent `tdp` attributes, `estimateWattage` is
exactly CPU tdp (0 when absent) plus GPU tdp (0 when absent) plus 100;
it is 100 when neither a CPU nor a GPU is selected; and it is monotone
non-decreasing in the two tdp contributions. -/
theorem estimateWattage_rule (parts parts' : Selection)
    (h1 : numOrAbsentB (slotAttr parts Category.CPU "tdp") = true)
    (h2 : numOrAbsentB (slotAttr parts Category.GPU "tdp") = true)
    (h3 : numOrAbsentB (slotAttr parts' Category.CPU "tdp") = true)
    (h4 : numOrAbsentB (slotAttr parts' Category.GPU "tdp") = true) :
    estimateWattage parts =
      JVal.num (numOrZero (slotAttr parts Category.CPU "tdp") +
        numOrZero (slotAttr parts Category.GPU "tdp") + 100) ∧
    (parts Category.CPU = none → parts Category.GPU = none →
      estimateWattage parts = JVal.num 100) ∧
    (numOrZero (slotAttr parts Category.CPU "tdp") ≤
        numOrZero (slotAttr parts' Category.CPU "tdp") →
     numOrZero (slotAttr parts Category.GPU "tdp") ≤
        numOrZero (slotAttr parts' Category.GPU "tdp") →
     ∃ w w' : Int, estimateWattage parts = JVal.num w ∧
       estimateWattage parts' = JVal.num w' ∧ w ≤ w') := by
  refine ⟨estimateWattage_num parts h1 h2, ?_, ?_⟩
  · intro hc hg
    have e1 : slotAttr parts Category.CPU "tdp" = none := by simp [slotAttr, hc]
    have e2 : slotAttr parts Category.GPU "tdp" = none := by simp [slotAttr, hg]
    rw [estimateWattage_num parts h1 h2, e1, e2]
    norm_num [numOrZero]
  · intro hle1 hle2
    exact ⟨_, _, estimateWattage_num parts h1 h2, estimateWattage_num parts' h3 h4, by omega⟩

/-- C5 witness: the empty selection draws 100, the demo AM5 build 165. -/
theorem estimateWattage_rule_witness :
    numOrAbsentB (slotAttr emptySel Category.CPU "tdp") = true ∧
    numOrAbsentB (slotAttr selScenario Category.CPU "tdp") = true ∧
    estimateWattage emptySel = JVal.num 100 ∧
    estimateWattage selScenario = JVal.num 165 := by
  have h0 := estimateWattage_rule emptySel emptySel rfl rfl rfl rfl
  have h1 := estimateWattage_rule selScenario selScenario rfl rfl rfl rfl
  refine ⟨rfl, rfl, h0.2.1 rfl rfl, ?_⟩
  have e : (numOrZero (slotAttr selScenario Category.CPU "tdp") +
      numOrZero (slotAttr selScenario Category.GPU "tdp") + 100 : Int) = 165 := by decide
  rw [h1.1, e]

/-- C6: the PSU check is performed exactly when a PSU is selected; the PSU
slot contributes nothing to `estimateWattage`; and (for numeric-or-absent
tdp and wattage attributes) it emits exactly one note, `warn` iff the
PSU's wattage (0 when absent) is strictly below the estimated wattage of
the same selection, `ok` otherwise. -/
theorem psu_check_rule (parts : Selection)
    (h1 : numOrAbsentB (slotAttr parts Category.CPU "tdp") = true)
    (h2 : numOrAbsentB (slotAttr parts Category.GPU "tdp") = true) :
    (parts Category.PSU = none → psuNotes parts = []) ∧
    (∀ q, estimateWattage (setSlot parts Category.PSU q) = estimateWattage parts) ∧
    (∀ psu, parts Category.PSU = some psu → numOrAbsentB (getAttr psu "wattage") = true →
      ∃ n, psuNotes parts = [n] ∧
        (n.level = Level.warn ↔ numOrZero (getAttr psu "wattage") <
          numOrZero (slotAttr parts Category.CPU "tdp") +
          numOrZero (slotAttr parts Category.GPU "tdp") + 100) ∧
        (n.level = Level.ok ↔ ¬ (numOrZero (getAttr psu "wattage") <
          numOrZero (slotAttr parts Category.CPU "tdp") +
          numOrZero (slotAttr parts Category.GPU "tdp") + 100))) := by
  refine ⟨?_, ?_, ?_⟩
  · intro h
    unfold psuNotes
    rw [h]
  · intro q
    have e1 : slotAttr (setSlot parts Category.PSU q) Category.CPU "tdp" =
        slotAttr parts Category.CPU "tdp" := by
      simp [slotAttr, setSlot]
    have e2 : slotAttr (setSlot parts Category.PSU q) Category.GPU "tdp" =
        slotAttr parts Category.GPU "tdp" := by
      simp [slotAttr, setSlot]
    unfold estimateWattage
    rw [e1, e2]
  · intro psu hp hw
    rw [psuNotes_eq parts psu hp, jsOrElse_num _ hw, estimateWattage_num parts h1 h2]
    by_cases hlt : numOrZero (getAttr psu "wattage") <
        numOrZero (slotAttr parts Category.CPU "tdp") +
        numOrZero (slotAttr parts Category.GPU "tdp") + 100
    · have hjs : jsLt (JVal.num (numOrZero (getAttr psu "wattage")))
          (JVal.num (numOrZero (slotAttr parts Category.CPU "tdp") +
            numOrZero (slotAttr parts Category.GPU "tdp") + 100)) = true := by
        simp [jsLt, jvalToNumberOpt, hlt]
      simp only [hjs, if_true]
      exact ⟨_, rfl, ⟨fun _ => hlt, fun _ => rfl⟩, ⟨(fun hlev => nomatch hlev), (fun hn => absurd hlt hn)⟩⟩
    · have hjs : jsLt (JVal.num (numOrZero (getAttr psu "wattage")))
          (JVal.num (numOrZero (slotAttr parts Category.CPU "tdp") +
            numOrZero (slotAttr parts Category.GPU "tdp") + 100)) = false := by
        simp [jsLt, jvalToNumberOpt, hlt]
      simp only [hjs, Bool.false_eq_true, if_false]
      exact ⟨_, rfl, ⟨(fun hlev => nomatch hlev), (fun hl => absurd hl hlt)⟩, ⟨fun _ => hlt, fun _ => rfl⟩⟩

/-- C6 witness: the demo AM5 build with a 550 W PSU (needs 165 W, ok). -/
theorem psu_check_rule_witness :
    numOrAbsentB (slotAttr selScenario Category.CPU "tdp") = true ∧
    numOrAbsentB (slotAttr selScenario Category.GPU "tdp") = true ∧
    selScenario Category.PSU = some psuA ∧
    numOrAbsentB (getAttr psuA "wattage") = true ∧
    ∃ n, psuNotes selScenario = [n] ∧
      (n.level = Level.warn ↔ numOrZero (getAttr psuA "wattage") <
        numOrZero (slotAttr selScenario Category.CPU "tdp") +
        numOrZero (slotAttr selScenario Category.GPU "tdp") + 100) ∧
      (n.level = Level.ok ↔ ¬ (numOrZero (getAttr psuA "wattage") <
        numOrZero (slotAttr selScenario Category.CPU "tdp") +
        numOrZero (slotAttr selScenario Category.GPU "tdp") + 100)) :=
  ⟨rfl, rfl, rfl, rfl, (psu_check_rule selScenario rfl rfl).2.2 psuA rfl rfl⟩

/-! ### Importer lemmas. -/

theorem keys_pred_objSet {α : Type} (P : String → Prop) (m : List (String × α)) (k : String)
    (v : α) (hm : ∀ kv, kv ∈ m → P kv.1) (hk : P k) :
    ∀ kv, kv ∈ objSet m k v → P kv.1 := by
  induction m with
  | nil =>
    intro kv hkv
    simp only [objSet, List.mem_singleton] at hkv
    rw [hkv]
    exact hk
  | cons hd tl ih =>
    cases hd with
    | mk k' v' =>
      intro kv hkv
      simp only [objSet] at hkv
      by_cases h : (k' == k) = true
      · rw [if_pos h] at hkv
        rcases List.mem_cons.mp hkv with h1 | h1
        · rw [h1]; exact hk
        · exact hm kv (List.mem_cons_of_mem _ h1)
      · rw [if_neg h] at hkv
        rcases List.mem_cons.mp hkv with h1 | h1
        · rw [h1]; exact hm (k', v') (List.mem_cons_self _ _)
        · exact ih (fun kv hkv => hm kv (List.mem_cons_of_mem _ hkv)) kv h1

theorem normalizeHeader_all_lower (s : String) :
    (normalizeHeader s).data.all isLowerAlnum = true := by
  unfold normalizeHeader
  rw [List.all_eq_true]
  intro c hc
  exact (List.mem_filter.mp hc).2

theorem keys_normal_buildMap (row : Row) :
    ∀ kv, kv ∈ buildMap row → kv.1.data.all isLowerAlnum = true := by
  have main : ∀ (rs : Row) (acc : List (String × Cell)),
      (∀ kv, kv ∈ acc → kv.1.data.all isLowerAlnum = true) →
      ∀ kv, kv ∈ rs.foldl (fun m kv => objSet m (normalizeHeader kv.1) kv.2) acc →
        kv.1.data.all isLowerAlnum = true := by
    intro rs
    induction rs with
    | nil =>
      intro acc hacc
      simpa using hacc
    | cons hd tl ih =>
      intro acc hacc
      rw [List.foldl_cons]
      exact ih _ (keys_pred_objSet (fun t => t.data.all isLowerAlnum = true) acc
        (normalizeHeader hd.1) hd.2 hacc (normalizeHeader_all_lower hd.1))
  intro kv hkv
  exact main row [] (by simp) kv hkv

theorem objGet_none_of_not_normal (m : List (String × Cell)) (key : String)
    (hm : ∀ kv, kv ∈ m → kv.1.data.all isLowerAlnum = true)
    (hkey : key.data.all isLowerAlnum = false) :
    objGet m key = none := by
  unfold objGet
  cases hfind : m.find? (fun kv => kv.1 == key) with
  | none => rfl
  | some kv =>
    have h1 := List.find?_some hfind
    have h2 : kv ∈ m := List.mem_of_find?_eq_some hfind
    have heq : kv.1 = key := by simpa using h1
    have h3 := hm kv h2
    rw [heq, hkey] at h3
    exact nomatch h3

/-! ### Importer claim theorems. -/

/-- C7: the category lookup under the raw Thai alias key can never hit the
normalized-header map, so a Thai `หมวดหมู่` column does not resolve the
category (the row falls back to the default `CPU`), while the English
`Category`/`Type` aliases resolve case-insensitively and unmatched or
missing values default to `CPU`. -/
theorem thai_category_alias_dead :
    (∀ row : Row, objGet (buildMap row) "หมวดหมู่" = none) ∧
    (parseRow jsonParseImpl "x" [("หมวดหมู่", Cell.str "gpu")]).category = Category.CPU ∧
    (parseRow jsonParseImpl "x" [("Category", Cell.str "gpu")]).category = Category.GPU ∧
    (parseRow jsonParseImpl "x" [("TYPE", Cell.str "GpU")]).category = Category.GPU ∧
    (parseRow jsonParseImpl "x" [("Category", Cell.str "Mainboard")]).category = Category.CPU ∧
    (parseRow jsonParseImpl "x" ([] : Row)).category = Category.CPU := by
  refine ⟨?_, rfl, rfl, rfl, rfl, rfl⟩
  intro row
  exact objGet_none_of_not_normal _ _ (keys_normal_buildMap row) (by decide)

/-- Row with a non-numeric price cell. -/
def rowW : Row := [("Price", Cell.str "abc")]

/-- C8 counterexample: a present non-numeric price string coerces to `NaN`,
not to the claimed default `0`. -/
theorem price_nonnumeric_nan :
    (parseRow jsonParseImpl "x" rowW).price = JsNumber.nan ∧
    JsNumber.nan ≠ JsNumber.val 0 := ⟨rfl, by decide⟩

/-- C8 amended: `price` and `stock` are the `Number(...)` coercion of the
first truthy aliased cell (default `0`); an absent (or falsy) column
yields `0`, a numeric value its number, and a present non-numeric string
yields `NaN` rather than `0`. -/
theorem price_stock_resolution (jp : String → Option JVal) (id : String) (row : Row) :
    (parseRow jp id row).price =
      cellToJsNumber (orCells [objGet (buildMap row) "price", objGet (buildMap row) "ราคา"]
        (Cell.num 0)) ∧
    (parseRow jp id row).stock =
      cellToJsNumber (orCells [objGet (buildMap row) "stock", objGet (buildMap row) "คงเหลือ",
        objGet (buildMap row) "จำนวน"] (Cell.num 0)) ∧
    (objGet (buildMap row) "price" = none → objGet (buildMap row) "ราคา" = none →
      (parseRow jp id row).price = JsNumber.val 0) ∧
    (∀ n : Int, orCells [objGet (buildMap row) "price", objGet (buildMap row) "ราคา"]
        (Cell.num 0) = Cell.num n → (parseRow jp id row).price = JsNumber.val n) ∧
    (∀ (s : String) (n : Int),
      orCells [objGet (buildMap row) "price", objGet (buildMap row) "ราคา"]
        (Cell.num 0) = Cell.str s → strToNumberOpt s = some n →
      (parseRow jp id row).price = JsNumber.val n) ∧
    (∀ s : String,
      orCells [objGet (buildMap row) "price", objGet (buildMap row) "ราคา"]
        (Cell.num 0) = Cell.str s → strToNumberOpt s = none →
      (parseRow jp id row).price = JsNumber.nan) := by
  have base : (parseRow jp id row).price =
      cellToJsNumber (orCells [objGet (buildMap row) "price", objGet (buildMap row) "ราคา"]
        (Cell.num 0)) := rfl
  refine ⟨rfl, rfl, ?_, ?_, ?_, ?_⟩
  · intro h1 h2
    rw [base, h1, h2]
    rfl
  · intro n h
    rw [base, h]
    rfl
  · intro s n h hs
    rw [base, h]
    simp [cellToJsNumber, hs]
  · intro s h hs
    rw [base, h]
    simp [cellToJsNumber, hs]

/-- C8 witness: the non-numeric row yields `NaN`; the empty row yields 0. -/
theorem price_stock_resolution_witness :
    orCells [objGet (buildMap rowW) "price", objGet (buildMap rowW) "ราคา"] (Cell.num 0) =
      Cell.str "abc" ∧
    strToNumberOpt "abc" = none ∧
    (parseRow jsonParseImpl "x" rowW).price = JsNumber.nan ∧
    (parseRow jsonParseImpl "x" ([] : Row)).price = JsNumber.val 0 :=
  ⟨rfl, rfl,
    (price_stock_resolution jsonParseImpl "x" rowW).2.2.2.2.2 "abc" rfl rfl,
    (price_stock_resolution jsonParseImpl "x" ([] : Row)).2.2.1 rfl rfl⟩

/-- C9: when the row carries a truthy string cell under the `attributes`
header, a successful parse merges the parsed value's own properties into
the alias-resolved attributes (a parsed object's fields, overwriting
same-named keys, `objGet (objSet base k v) k = some v`); a failed parse
is swallowed and the row keeps exactly the alias-resolved attributes. -/
theorem attributes_merge_rule (jp : String → Option JVal) (id : String) (row : Row)
    (s : String) (hattr : objGet (buildMap row) "attributes" = some (Cell.str s))
    (hs : s ≠ "") :
    (∀ j, jp s = some j →
      (parseRow jp id row).attributes =
        objAssign (resolveAliases (buildMap row)) (ownProps j)) ∧
    (∀ fields, jp s = some (JVal.obj fields) →
      (parseRow jp id row).attributes =
        objAssign (resolveAliases (buildMap row)) fields) ∧
    (jp s = none → (parseRow jp id row).attributes = resolveAliases (buildMap row)) ∧
    (∀ (base : List (String × JVal)) (k : String) (v : JVal),
      objGet (objSet base k v) k = some v) := by
  have base : (parseRow jp id row).attributes =
      mergeJsonAttrs jp (buildMap row) (resolveAliases (buildMap row)) := rfl
  have htr : truthyCell (Cell.str s) = true := by simp [truthyCell, hs]
  refine ⟨?_, ?_, ?_, fun b k v => objGet_objSet b k v⟩
  · intro j hj
    rw [base]
    unfold mergeJsonAttrs
    rw [hattr]
    simp [htr, hj]
  · intro fields hj
    rw [base]
    unfold mergeJsonAttrs
    rw [hattr]
    simp [htr, hj, ownProps]
  · intro hj
    rw [base]
    unfold mergeJsonAttrs
    rw [hattr]
    simp [htr, hj]

/-- Row with an alias-resolved socket and a JSON attributes column that
overrides it and adds a key. -/
def rowJ : Row :=
  [("Socket", Cell.str "AM5"),
   ("Attributes", Cell.str "\x7b\"socket\":\"X\",\"extra\":1\x7d")]

/-- Row with an alias-resolved socket and a malformed attributes column. -/
def rowJBad : Row :=
  [("Socket", Cell.str "AM5"), ("Attributes", Cell.str "not json")]

/-- C9 witness: successful merge overwrites the aliased socket and appends
the extra key; a malformed JSON cell leaves the aliased attributes. -/
theorem attributes_merge_rule_witness :
    objGet (buildMap rowJ) "attributes" =
      some (Cell.str "\x7b\"socket\":\"X\",\"extra\":1\x7d") ∧
    ("\x7b\"socket\":\"X\",\"extra\":1\x7d" : String) ≠ "" ∧
    jsonParseImpl "\x7b\"socket\":\"X\",\"extra\":1\x7d" =
      some (JVal.obj [("socket", JVal.str "X"), ("extra", JVal.num 1)]) ∧
    (parseRow jsonParseImpl "x" rowJ).attributes =
      [("socket", JVal.str "X"), ("extra", JVal.num 1)] ∧
    jsonParseImpl "not json" = none ∧
    (parseRow jsonParseImpl "x" rowJBad).attributes = [("socket", JVal.str "AM5")] := by
  refine ⟨rfl, by decide, rfl, ?_, rfl, ?_⟩
  · have h := (attributes_merge_rule jsonParseImpl "x" rowJ
      "\x7b\"socket\":\"X\",\"extra\":1\x7d" rfl (by decide)).2.1
      [("socket", JVal.str "X"), ("extra", JVal.num 1)] rfl
    rw [h]
    rfl
  · have h := (attributes_merge_rule jsonParseImpl "x" rowJBad "not json" rfl
      (by decide)).2.2.1 rfl
    rw [h]
    rfl

/-- C10: deleting by id keeps exactly the inventory products whose id
differs, leaves the builder selection untouched (so a selected product
survives as a stale full copy), and `selectPart` stores the full product
record in the slot. -/
theorem deleteProduct_frame (s : AppState) (id : String) :
    (∀ p, p ∈ (deleteProduct s id).inventory ↔ (p ∈ s.inventory ∧ p.id ≠ id)) ∧
    (deleteProduct s id).build = s.build ∧
    (∀ c p, s.build c = some p → (deleteProduct s id).build c = some p) ∧
    (∀ c p, (selectPart s c (some p)).build c = some p) := by
  refine ⟨?_, rfl, ?_, ?_⟩
  · intro p
    simp [deleteProduct, List.mem_filter, bne_iff_ne]
  · intro c p h
    exact h
  · intro c p
    simp [selectPart, setSlot]

/-- C10 witness: deleting the selected CPU from the demo state empties its
inventory entry but the selection still returns the full stale record. -/
theorem deleteProduct_frame_witness :
    stateA.build Category.CPU = some cpuA ∧
    (deleteProduct stateA "c1").inventory = [mbA] ∧
    (deleteProduct stateA "c1").build Category.CPU = some cpuA :=
  ⟨rfl, rfl, (deleteProduct_frame stateA "c1").2.2.1 Category.CPU cpuA rfl⟩

end PCBuilder
